import Mathlib

/-!
Verification development for `src/sdk/pynni/nni/nas/pytorch/utils.py`.

The file is embedded shallowly:

* `global_mutable_counting` is modelled as explicit state passing over the
  module-level `_counter` integer.
* `to_device` is modelled over an inductive type `PyObj` of the Python values
  it dispatches on (tensors, tuples, lists, dicts, ints, floats, strings, and
  a case for any other object); the `raise ValueError` branch becomes
  `Except.error`.
* `AverageMeter` is modelled twice: once with rational-number arithmetic for
  the numeric contract, and once (`DynMeter`) with Python dynamic-typing
  semantics, where `+`/`*`/`/` on mismatched operand types raise `TypeError`,
  to settle the non-numeric-value claim.
* `StructuredMutableTreeNode.traverse` is a Python generator that threads a
  mutable `memo` set through the recursion.  It is modelled as a pure
  function from the node, the order string, the deduplicate flag and the
  incoming memo (a list of keys used as a set) to the pair of the produced
  entities and the outgoing memo.  Generator invocation semantics (calling a
  generator function runs none of its body) is modelled separately for the
  invalid-order claim.
-/

namespace NasUtils

/-- An externally defined mutable entity.  Only its `key` matters to the
tree (deduplication compares keys); `tyName` models the Python class of the
object (returned by `type(...)`) and `oid` models object identity, so two
distinct entities may share a key. -/
structure Mutable where
  key : String
  tyName : String
  oid : Nat
deriving DecidableEq, Repr

/-- `StructuredMutableTreeNode`: a node holds an optional mutable (the root
holds none) and an ordered list of children. -/
inductive Tree where
  | mk (mutable : Option Mutable) (children : List Tree)

def Tree.mutableOf : Tree → Option Mutable
  | .mk m _ => m

def Tree.childrenOf : Tree → List Tree
  | .mk _ cs => cs

/-- `add_child`: append a fresh node wrapping `m` to the receiver's
children.  Python mutates the receiver and returns the new child for
chaining; functionally we return the updated receiver. -/
def Tree.add_child : Tree → Option Mutable → Tree
  | .mk m cs, x => .mk m (cs ++ [.mk x []])

/-- `memo.add(key)` on a Python set: idempotent insertion. -/
def addKey (memo : List String) (k : String) : List String :=
  if memo.contains k then memo else k :: memo

/-- One `if self.mutable is not None: if not deduplicate or key not in memo:
memo.add(key); yield self.mutable` block from `traverse`. -/
def visitSelf (dedup : Bool) (mt : Option Mutable) (memo : List String) :
    List Mutable × List String :=
  match mt with
  | none => ([], memo)
  | some m =>
    if !dedup || !(memo.contains m.key) then ([m], addKey memo m.key)
    else ([], memo)

mutual

/-- Body of `traverse` for a valid order, with the threaded `memo` made
explicit: returns the yielded entities and the memo after the subtree. -/
def traverseNode (order : String) (dedup : Bool) :
    Tree → List String → List Mutable × List String
  | Tree.mk mt cs, memo =>
    let s1 := if order = "pre" then visitSelf dedup mt memo else ([], memo)
    let s2 := traverseChildren order dedup cs s1.2
    let s3 := if order = "post" then visitSelf dedup mt s2.2 else ([], s2.2)
    (s1.1 ++ s2.1 ++ s3.1, s3.2)

/-- The `for child in self.children: yield from child.traverse(...)` loop. -/
def traverseChildren (order : String) (dedup : Bool) :
    List Tree → List String → List Mutable × List String
  | [], memo => ([], memo)
  | c :: cs, memo =>
    let s1 := traverseNode order dedup c memo
    let s2 := traverseChildren order dedup cs s1.2
    (s1.1 ++ s2.1, s2.2)

end

/-- `node.traverse(order, deduplicate)` driven to exhaustion with a fresh
memo, for a valid order. -/
def Tree.traverse (t : Tree) (order : String) (dedup : Bool) : List Mutable :=
  (traverseNode order dedup t []).1

/-- `__iter__` returns `self.traverse()`, i.e. `traverse` with its default
arguments `order="pre", deduplicate=True, memo=None`. -/
def Tree.iter (t : Tree) : List Mutable :=
  Tree.traverse t "pre" true

mutual

/-- Specification-side pre-order flattening: a node's entity (when present)
comes before every entity of its descendants, and children are flattened
left to right. -/
def preFlat : Tree → List Mutable
  | .mk mt cs => mt.toList ++ preFlatList cs

def preFlatList : List Tree → List Mutable
  | [] => []
  | c :: cs => preFlat c ++ preFlatList cs

end

mutual

/-- Specification-side post-order flattening: children left to right first,
then the node's own entity (when present). -/
def postFlat : Tree → List Mutable
  | .mk mt cs => postFlatList cs ++ mt.toList

def postFlatList : List Tree → List Mutable
  | [] => []
  | c :: cs => postFlat c ++ postFlatList cs

end

mutual

/-- The entity of every node of the tree, one entry per entity-bearing
node.  When `traverse` is invoked on a search-space root (whose `mutable`
is `None`), these are exactly the entities of the non-root nodes. -/
def nodeEntities : Tree → List Mutable
  | .mk mt cs => mt.toList ++ nodeEntitiesList cs

def nodeEntitiesList : List Tree → List Mutable
  | [] => []
  | c :: cs => nodeEntities c ++ nodeEntitiesList cs

end

/-- Deduplication of a flattened entity list relative to an incoming set of
seen keys: an entity is kept exactly when its key has not been seen before
it, and its key is then recorded. -/
def dedupScan : List String → List Mutable → List Mutable × List String
  | memo, [] => ([], memo)
  | memo, m :: ms =>
    if memo.contains m.key then dedupScan memo ms
    else
      let s := dedupScan (addKey memo m.key) ms
      (m :: s.1, s.2)

/-- Keep, for each entity key, only the first entity carrying it. -/
def keepFirstByKey (l : List Mutable) : List Mutable :=
  (dedupScan [] l).1

/-- A suspended generator produced by calling `traverse`: the arguments are
captured, no body code has run yet. -/
structure TraverseGenerator where
  node : Tree
  order : String
  dedup : Bool

/-- Calling `node.traverse(order, deduplicate)`.  `traverse` is a generator
function (its body contains `yield`), so in Python the call itself executes
none of the body and can raise no exception; it returns a suspended
generator.  The codomain is an `Except` so that call-time failure is
statable; per the language semantics the result is always `ok`. -/
def Tree.traverseCall (t : Tree) (order : String) (dedup : Bool) :
    Except String TraverseGenerator :=
  Except.ok { node := t, order := order, dedup := dedup }

/-- Driving a suspended `traverse` generator to exhaustion: the entities it
produced, and the exception (if any) that terminated it.  The body first
initializes `memo`, then runs `assert order in ["pre", "post"]`; with an
invalid order the first `next` raises `AssertionError` before any entity is
produced. -/
def TraverseGenerator.run (g : TraverseGenerator) : List Mutable × Option String :=
  if g.order = "pre" ∨ g.order = "post" then
    ((traverseNode g.order g.dedup g.node []).1, none)
  else
    ([], some "AssertionError")

/-- `type(x)` for the values a node's `mutable` field ranges over:
`type(None)` is the class `NoneType`; a mutable entity's type is its own
class. -/
inductive PyType where
  | noneType
  | mutableClass (tyName : String)
deriving DecidableEq, Repr

/-- Python dynamic `type(...)` on an optional mutable. -/
def pyTypeOf : Option Mutable → PyType
  | none => PyType.noneType
  | some m => PyType.mutableClass m.tyName

/-- `StructuredMutableTreeNode.type`: `return type(self.mutable)`. -/
def Tree.typeOf (t : Tree) : PyType :=
  pyTypeOf t.mutableOf

/-- The spec's description of `node_type`: the runtime type tag of the
wrapped entity, and undefined/null for the root (entity unset).  Modelled
from the spec sentence, for comparison with `Tree.typeOf`. -/
def node_type_spec (t : Tree) : Option PyType :=
  (Tree.mutableOf t).map (fun m => PyType.mutableClass m.tyName)

/-- What a caller observes from `node.type()`: Python always returns an
actual type object here, never `None`, so the observation is `some` of the
returned type. -/
def Tree.typeObserved (t : Tree) : Option PyType :=
  some (Tree.typeOf t)

/-- The example tree of the spec: root `R` with children `A(key="a")` and
`B(key="b")`, where `A` has one child `C(key="c")`. -/
def sampleA : Mutable := { key := "a", tyName := "LayerChoice", oid := 0 }

def sampleB : Mutable := { key := "b", tyName := "LayerChoice", oid := 1 }

def sampleC : Mutable := { key := "c", tyName := "InputChoice", oid := 2 }

def sampleTree : Tree :=
  Tree.mk none
    [Tree.mk (some sampleA) [Tree.mk (some sampleC) []],
     Tree.mk (some sampleB) []]

/-- `global_mutable_counting`: `_counter += 1; return _counter`, with the
module-level `_counter` made an explicit argument; the result is the new
counter state paired with the returned value. -/
def global_mutable_counting (counter : Nat) : Nat × Nat :=
  (counter + 1, counter + 1)

/-- `_counter` after `k` calls; the module initializes it to `0`. -/
def counterState : Nat → Nat
  | 0 => 0
  | k + 1 => (global_mutable_counting (counterState k)).1

/-- Value returned by the `(k+1)`-th sequential call (`k` starting at 0). -/
def counterReturn (k : Nat) : Nat :=
  (global_mutable_counting (counterState k)).2

/-- The Python values `to_device` dispatches on: tensors (identified by an
id and the device they live on), tuples, lists, dicts, the pass-through
scalars, and any other object (carried as its `str(...)` rendering plus its
type name, which is all the error message uses). -/
inductive PyObj where
  | tensor (tid : Nat) (device : Nat)
  | tup (xs : List PyObj)
  | lst (xs : List PyObj)
  | dict (kvs : List (String × PyObj))
  | pyInt (n : Int)
  | pyFloat (q : Rat)
  | pyStr (s : String)
  | other (reprStr : String) (tyName : String)

/-- A single quote character, used by the `ValueError` message. -/
def sq : String :=
  String.singleton (Char.ofNat 39)

/-- The message of `ValueError("'%s' has unsupported type '%s'" % (obj, type(obj)))`. -/
def unsupportedMsg (reprStr tyName : String) : String :=
  sq ++ reprStr ++ sq ++ " has unsupported type " ++ sq ++ tyName ++ sq

mutual

/-- `to_device(obj, device)`: tensors are moved with `.to(device)`, tuples,
lists and dicts are rebuilt recursively, `int`/`float`/`str` pass through,
anything else raises `ValueError` (modelled as `Except.error`).  The
function is pure: it either returns a whole new value or an error, and the
input is untouched. -/
def to_device : PyObj → Nat → Except String PyObj
  | .tensor tid _, dev => .ok (.tensor tid dev)
  | .tup xs, dev =>
    match toDeviceList xs dev with
    | .error e => .error e
    | .ok ys => .ok (.tup ys)
  | .lst xs, dev =>
    match toDeviceList xs dev with
    | .error e => .error e
    | .ok ys => .ok (.lst ys)
  | .dict kvs, dev =>
    match toDeviceDict kvs dev with
    | .error e => .error e
    | .ok ws => .ok (.dict ws)
  | .pyInt n, _ => .ok (.pyInt n)
  | .pyFloat q, _ => .ok (.pyFloat q)
  | .pyStr s, _ => .ok (.pyStr s)
  | .other reprStr tyName, _ => .error (unsupportedMsg reprStr tyName)

/-- Elementwise recursion of `to_device` over a tuple or list, left to
right; the first element that raises aborts the rebuild. -/
def toDeviceList : List PyObj → Nat → Except String (List PyObj)
  | [], _ => .ok []
  | x :: xs, dev =>
    match to_device x dev with
    | .error e => .error e
    | .ok y =>
      match toDeviceList xs dev with
      | .error e => .error e
      | .ok ys => .ok (y :: ys)

/-- Valuewise recursion of `to_device` over a dict (keys untouched). -/
def toDeviceDict : List (String × PyObj) → Nat → Except String (List (String × PyObj))
  | [], _ => .ok []
  | (k, v) :: kvs, dev =>
    match to_device v dev with
    | .error e => .error e
    | .ok w =>
      match toDeviceDict kvs dev with
      | .error e => .error e
      | .ok ws => .ok ((k, w) :: ws)

end

mutual

/-- The leftmost (in depth-first evaluation order) value inside `obj` that
falls through every `isinstance` check of `to_device`, with its `str`
rendering and type name; `none` when every value is supported. -/
def firstBad : PyObj → Option (String × String)
  | .tensor _ _ => none
  | .tup xs => firstBadList xs
  | .lst xs => firstBadList xs
  | .dict kvs => firstBadDict kvs
  | .pyInt _ => none
  | .pyFloat _ => none
  | .pyStr _ => none
  | .other reprStr tyName => some (reprStr, tyName)

def firstBadList : List PyObj → Option (String × String)
  | [] => none
  | x :: xs =>
    match firstBad x with
    | some b => some b
    | none => firstBadList xs

def firstBadDict : List (String × PyObj) → Option (String × String)
  | [] => none
  | (_, v) :: kvs =>
    match firstBad v with
    | some b => some b
    | none => firstBadDict kvs

end

mutual

/-- Specification-side description of a successful `to_device`: the same
container shape with every tensor moved to `dev` and every scalar
unchanged.  (On unsupported values, where `to_device` never succeeds, it is
the identity.) -/
def moveTensors (dev : Nat) : PyObj → PyObj
  | .tensor tid _ => .tensor tid dev
  | .tup xs => .tup (moveTensorsList dev xs)
  | .lst xs => .lst (moveTensorsList dev xs)
  | .dict kvs => .dict (moveTensorsDict dev kvs)
  | .pyInt n => .pyInt n
  | .pyFloat q => .pyFloat q
  | .pyStr s => .pyStr s
  | .other reprStr tyName => .other reprStr tyName

def moveTensorsList (dev : Nat) : List PyObj → List PyObj
  | [] => []
  | x :: xs => moveTensors dev x :: moveTensorsList dev xs

def moveTensorsDict (dev : Nat) : List (String × PyObj) → List (String × PyObj)
  | [] => []
  | (k, v) :: kvs => (k, moveTensors dev v) :: moveTensorsDict dev kvs

end

/-- `AverageMeter`, with the numeric fields modelled as rationals (Python
ints and floats under exact arithmetic). -/
structure AverageMeter where
  name : String
  fmt : String
  val : Rat
  avg : Rat
  sum : Rat
  count : Rat

/-- `reset`: zero the four statistics. -/
def AverageMeter.reset (m : AverageMeter) : AverageMeter :=
  { m with val := 0, avg := 0, sum := 0, count := 0 }

/-- `AverageMeter(name, fmt)`: store the strings, then `self.reset()`. -/
def AverageMeter.init (name fmt : String) : AverageMeter :=
  AverageMeter.reset { name := name, fmt := fmt, val := 0, avg := 0, sum := 0, count := 0 }

/-- `update(val, n)`: `self.val = val; self.sum += val * n;
self.count += n; self.avg = self.sum / self.count`. -/
def AverageMeter.update (m : AverageMeter) (v : Rat) (n : Nat) : AverageMeter :=
  let s := m.sum + v * (n : Rat)
  let c := m.count + (n : Rat)
  { m with val := v, sum := s, count := c, avg := s / c }

/-- A sequence of `update` calls, first element first. -/
def applyUpdates (m : AverageMeter) (us : List (Rat × Nat)) : AverageMeter :=
  us.foldl (fun acc p => acc.update p.1 p.2) m

/-- Python values that can reach `AverageMeter.update` in the dynamic
model: ints, floats, and a representative non-numeric type (strings). -/
inductive MVal where
  | int (z : Int)
  | float (q : Rat)
  | str (s : String)
deriving DecidableEq, Repr

/-- `isinstance(v, float) or isinstance(v, int)`. -/
def MVal.isNumber : MVal → Bool
  | .int _ => true
  | .float _ => true
  | .str _ => false

/-- Python `v * n` for `n` an int: numeric multiplication, or string
repetition — never a `TypeError` for these operand types. -/
def pyMul (v : MVal) (n : Int) : MVal :=
  match v with
  | .int z => .int (z * n)
  | .float q => .float (q * (n : Rat))
  | .str s => .str (String.join (List.replicate n.toNat s))

/-- Python `a + b`: numeric addition (int promoted to float when mixed),
string concatenation, and `TypeError` on a number/string mix. -/
def pyAdd (a b : MVal) : Except String MVal :=
  match a, b with
  | .int x, .int y => .ok (.int (x + y))
  | .int x, .float q => .ok (.float ((x : Rat) + q))
  | .float q, .int y => .ok (.float (q + (y : Rat)))
  | .float p, .float q => .ok (.float (p + q))
  | .str s, .str t => .ok (.str (s ++ t))
  | .str _, .int _ => .error "TypeError"
  | .str _, .float _ => .error "TypeError"
  | .int _, .str _ => .error "TypeError"
  | .float _, .str _ => .error "TypeError"

/-- Python `a / n` for `n` an int: true division producing a float,
`ZeroDivisionError` on zero, `TypeError` for a string numerator. -/
def pyDivInt (a : MVal) (n : Int) : Except String MVal :=
  if n = 0 then .error "ZeroDivisionError"
  else
    match a with
    | .int x => .ok (.float ((x : Rat) / (n : Rat)))
    | .float q => .ok (.float (q / (n : Rat)))
    | .str _ => .error "TypeError"

/-- `AverageMeter` state under dynamic typing: `val`, `sum` and `avg` hold
whatever Python value was last assigned; `count` stays an int. -/
structure DynMeter where
  val : MVal
  sum : MVal
  count : Int
  avg : MVal
deriving DecidableEq, Repr

/-- A freshly reset meter: all four statistics are the int `0`. -/
def freshDynMeter : DynMeter :=
  { val := .int 0, sum := .int 0, count := 0, avg := .int 0 }

/-- `update(val, n)` under Python dynamic semantics.  The result is the
warning flag (the `isinstance` check only logs; it never stops execution),
the meter state after the call, and the exception raised, if any.
Assignments made before a raising expression persist, as in Python:
`self.val = val` always lands; `self.sum += val * n` is the first
expression that can raise. -/
def DynMeter.update (m : DynMeter) (v : MVal) (n : Int) :
    Bool × DynMeter × Option String :=
  let warned := !v.isNumber
  let m1 := { m with val := v }
  match pyAdd m.sum (pyMul v n) with
  | .error e => (warned, m1, some e)
  | .ok s =>
    let m2 := { m1 with sum := s, count := m.count + n }
    match pyDivInt s m2.count with
    | .error e => (warned, m2, some e)
    | .ok a => (warned, { m2 with avg := a }, none)

/-! ### Lemmas about the traversal -/

theorem visitSelf_false_fst (mt : Option Mutable) (memo : List String) :
    (visitSelf false mt memo).1 = mt.toList := by
  cases mt <;> simp [visitSelf]

theorem visitSelf_true_eq_dedupScan (mt : Option Mutable) (memo : List String) :
    visitSelf true mt memo = dedupScan memo mt.toList := by
  cases mt with
  | none => simp [visitSelf, dedupScan]
  | some m =>
    by_cases h : memo.contains m.key <;> simp [visitSelf, dedupScan, h]

theorem dedupScan_append (memo : List String) (xs ys : List Mutable) :
    dedupScan memo (xs ++ ys) =
      ((dedupScan memo xs).1 ++ (dedupScan (dedupScan memo xs).2 ys).1,
       (dedupScan (dedupScan memo xs).2 ys).2) := by
  induction xs generalizing memo with
  | nil => simp [dedupScan]
  | cons m ms ih =>
    by_cases h : m.key ∈ memo <;> simp [dedupScan, h, ih]

mutual

theorem traverseNode_pre_nodedup (t : Tree) (memo : List String) :
    (traverseNode "pre" false t memo).1 = preFlat t := by
  match t with
  | Tree.mk mt cs =>
    simp [traverseNode, preFlat, visitSelf_false_fst,
      traverseChildren_pre_nodedup cs]

theorem traverseChildren_pre_nodedup (ts : List Tree) (memo : List String) :
    (traverseChildren "pre" false ts memo).1 = preFlatList ts := by
  match ts with
  | [] => simp [traverseChildren, preFlatList]
  | c :: cs =>
    simp [traverseChildren, preFlatList, traverseNode_pre_nodedup c,
      traverseChildren_pre_nodedup cs]

end

mutual

theorem traverseNode_post_nodedup (t : Tree) (memo : List String) :
    (traverseNode "post" false t memo).1 = postFlat t := by
  match t with
  | Tree.mk mt cs =>
    simp [traverseNode, postFlat, visitSelf_false_fst,
      traverseChildren_post_nodedup cs]

theorem traverseChildren_post_nodedup (ts : List Tree) (memo : List String) :
    (traverseChildren "post" false ts memo).1 = postFlatList ts := by
  match ts with
  | [] => simp [traverseChildren, postFlatList]
  | c :: cs =>
    simp [traverseChildren, postFlatList, traverseNode_post_nodedup c,
      traverseChildren_post_nodedup cs]

end

mutual

theorem traverseNode_pre_dedup (t : Tree) (memo : List String) :
    traverseNode "pre" true t memo = dedupScan memo (preFlat t) := by
  match t with
  | Tree.mk mt cs =>
    simp [traverseNode, preFlat, visitSelf_true_eq_dedupScan, dedupScan_append,
      traverseChildren_pre_dedup cs]

theorem traverseChildren_pre_dedup (ts : List Tree) (memo : List String) :
    traverseChildren "pre" true ts memo = dedupScan memo (preFlatList ts) := by
  match ts with
  | [] => simp [traverseChildren, preFlatList, dedupScan]
  | c :: cs =>
    simp [traverseChildren, preFlatList, dedupScan_append,
      traverseNode_pre_dedup c, traverseChildren_pre_dedup cs]

end

mutual

theorem traverseNode_post_dedup (t : Tree) (memo : List String) :
    traverseNode "post" true t memo = dedupScan memo (postFlat t) := by
  match t with
  | Tree.mk mt cs =>
    simp [traverseNode, postFlat, visitSelf_true_eq_dedupScan, dedupScan_append,
      traverseChildren_post_dedup cs]

theorem traverseChildren_post_dedup (ts : List Tree) (memo : List String) :
    traverseChildren "post" true ts memo = dedupScan memo (postFlatList ts) := by
  match ts with
  | [] => simp [traverseChildren, postFlatList, dedupScan]
  | c :: cs =>
    simp [traverseChildren, postFlatList, dedupScan_append,
      traverseNode_post_dedup c, traverseChildren_post_dedup cs]

end

mutual

theorem preFlat_eq_nodeEntities (t : Tree) : preFlat t = nodeEntities t := by
  match t with
  | Tree.mk mt cs =>
    simp [preFlat, nodeEntities, preFlatList_eq_nodeEntitiesList cs]

theorem preFlatList_eq_nodeEntitiesList (ts : List Tree) :
    preFlatList ts = nodeEntitiesList ts := by
  match ts with
  | [] => rfl
  | c :: cs =>
    simp [preFlatList, nodeEntitiesList, preFlat_eq_nodeEntities c,
      preFlatList_eq_nodeEntitiesList cs]

end

mutual

theorem postFlat_perm_nodeEntities (t : Tree) :
    (postFlat t).Perm (nodeEntities t) := by
  match t with
  | Tree.mk mt cs =>
    exact List.perm_append_comm.trans
      ((postFlatList_perm_nodeEntitiesList cs).append_left mt.toList)

theorem postFlatList_perm_nodeEntitiesList (ts : List Tree) :
    (postFlatList ts).Perm (nodeEntitiesList ts) := by
  match ts with
  | [] => exact List.Perm.refl []
  | c :: cs =>
    exact (postFlat_perm_nodeEntities c).append
      (postFlatList_perm_nodeEntitiesList cs)

end

/-! ### Lemmas about `to_device` -/

mutual

theorem to_device_of_supported (x : PyObj) (dev : Nat) (h : firstBad x = none) :
    to_device x dev = Except.ok (moveTensors dev x) := by
  match x with
  | .tensor tid d => simp [to_device, moveTensors]
  | .tup xs =>
    rw [firstBad] at h
    simp [to_device, moveTensors, toDeviceList_of_supported xs dev h]
  | .lst xs =>
    rw [firstBad] at h
    simp [to_device, moveTensors, toDeviceList_of_supported xs dev h]
  | .dict kvs =>
    rw [firstBad] at h
    simp [to_device, moveTensors, toDeviceDict_of_supported kvs dev h]
  | .pyInt n => simp [to_device, moveTensors]
  | .pyFloat q => simp [to_device, moveTensors]
  | .pyStr s => simp [to_device, moveTensors]
  | .other reprStr tyName => simp [firstBad] at h

theorem toDeviceList_of_supported (xs : List PyObj) (dev : Nat)
    (h : firstBadList xs = none) :
    toDeviceList xs dev = Except.ok (moveTensorsList dev xs) := by
  match xs with
  | [] => simp [toDeviceList, moveTensorsList]
  | x :: rest =>
    rw [firstBadList] at h
    match hx : firstBad x with
    | some b => rw [hx] at h; exact absurd h (by simp)
    | none =>
      rw [hx] at h
      simp [toDeviceList, moveTensorsList, to_device_of_supported x dev hx,
        toDeviceList_of_supported rest dev h]

theorem toDeviceDict_of_supported (kvs : List (String × PyObj)) (dev : Nat)
    (h : firstBadDict kvs = none) :
    toDeviceDict kvs dev = Except.ok (moveTensorsDict dev kvs) := by
  match kvs with
  | [] => simp [toDeviceDict, moveTensorsDict]
  | (k, v) :: rest =>
    rw [firstBadDict] at h
    match hv : firstBad v with
    | some b => rw [hv] at h; exact absurd h (by simp)
    | none =>
      rw [hv] at h
      simp [toDeviceDict, moveTensorsDict, to_device_of_supported v dev hv,
        toDeviceDict_of_supported rest dev h]

end

mutual

theorem to_device_of_bad (x : PyObj) (dev : Nat) (rep ty : String)
    (h : firstBad x = some (rep, ty)) :
    to_device x dev = Except.error (unsupportedMsg rep ty) := by
  match x with
  | .tensor tid d => simp [firstBad] at h
  | .tup xs =>
    rw [firstBad] at h
    simp [to_device, toDeviceList_of_bad xs dev rep ty h]
  | .lst xs =>
    rw [firstBad] at h
    simp [to_device, toDeviceList_of_bad xs dev rep ty h]
  | .dict kvs =>
    rw [firstBad] at h
    simp [to_device, toDeviceDict_of_bad kvs dev rep ty h]
  | .pyInt n => simp [firstBad] at h
  | .pyFloat q => simp [firstBad] at h
  | .pyStr s => simp [firstBad] at h
  | .other reprStr tyName =>
    simp only [firstBad, Option.some.injEq, Prod.mk.injEq] at h
    rw [to_device, h.1, h.2]

theorem toDeviceList_of_bad (xs : List PyObj) (dev : Nat) (rep ty : String)
    (h : firstBadList xs = some (rep, ty)) :
    toDeviceList xs dev = Except.error (unsupportedMsg rep ty) := by
  match xs with
  | [] => simp [firstBadList] at h
  | x :: rest =>
    rw [firstBadList] at h
    match hx : firstBad x with
    | some b =>
      rw [hx] at h
      injection h with h'
      rw [h'] at hx
      simp [toDeviceList, to_device_of_bad x dev rep ty hx]
    | none =>
      rw [hx] at h
      simp [toDeviceList, to_device_of_supported x dev hx,
        toDeviceList_of_bad rest dev rep ty h]

theorem toDeviceDict_of_bad (kvs : List (String × PyObj)) (dev : Nat) (rep ty : String)
    (h : firstBadDict kvs = some (rep, ty)) :
    toDeviceDict kvs dev = Except.error (unsupportedMsg rep ty) := by
  match kvs with
  | [] => simp [firstBadDict] at h
  | (k, v) :: rest =>
    rw [firstBadDict] at h
    match hv : firstBad v with
    | some b =>
      rw [hv] at h
      injection h with h'
      rw [h'] at hv
      simp [toDeviceDict, to_device_of_bad v dev rep ty hv]
    | none =>
      rw [hv] at h
      simp [toDeviceDict, to_device_of_supported v dev hv,
        toDeviceDict_of_bad rest dev rep ty h]

end

/-! ### Lemmas about the counter and the meters -/

theorem counterState_eq (k : Nat) : counterState k = k := by
  induction k with
  | zero => rfl
  | succ k ih => simp [counterState, global_mutable_counting, ih]

theorem counterReturn_eq (k : Nat) : counterReturn k = k + 1 := by
  simp [counterReturn, global_mutable_counting, counterState_eq]

theorem applyUpdates_count_sum (us : List (Rat × Nat)) (m : AverageMeter) :
    (applyUpdates m us).count = m.count + (us.map fun p => ((p.2 : Rat))).sum ∧
    (applyUpdates m us).sum = m.sum + (us.map fun p => p.1 * ((p.2 : Rat))).sum := by
  induction us generalizing m with
  | nil => simp [applyUpdates]
  | cons u rest ih =>
    have h := ih (m.update u.1 u.2)
    simp only [applyUpdates, List.foldl_cons] at h ⊢
    rw [h.1, h.2]
    simp [AverageMeter.update]
    constructor <;> ring

theorem applyUpdates_val_avg (us : List (Rat × Nat)) (m : AverageMeter)
    (v : Rat) (n : Nat) :
    (applyUpdates (m.update v n) us).val = (((v, n) :: us).getLast (by simp)).1 ∧
    (applyUpdates (m.update v n) us).avg =
      (applyUpdates (m.update v n) us).sum / (applyUpdates (m.update v n) us).count := by
  induction us generalizing m v n with
  | nil => simp [applyUpdates, AverageMeter.update]
  | cons u rest ih =>
    have h := ih (m.update v n) u.1 u.2
    simp only [applyUpdates, List.foldl_cons] at h ⊢
    refine ⟨?_, h.2⟩
    rw [h.1]
    rcases rest with _ | ⟨w, ws⟩ <;> simp

/-! ### Claim theorems -/

/-- C1: for every tree and both orders, deduplicated traversal yields, among
the nodes sharing an entity key, only the entity of the first such node in
the requested traversal order (`keepFirstByKey` of the non-deduplicated
traversal keeps exactly the first entity per key and drops every later
one); the root's absent entity contributes nothing.  On the spec's example
tree, deduplicated pre-order yields `[a, c, b]` and deduplicated post-order
yields `[c, a, b]`. -/
theorem traverse_dedup_keeps_first_by_key (t : Tree) :
    Tree.traverse t "pre" true = keepFirstByKey (Tree.traverse t "pre" false) ∧
    Tree.traverse t "post" true = keepFirstByKey (Tree.traverse t "post" false) ∧
    Tree.traverse sampleTree "pre" true = [sampleA, sampleC, sampleB] ∧
    Tree.traverse sampleTree "post" true = [sampleC, sampleA, sampleB] := by
  refine ⟨?_, ?_, by decide, by decide⟩
  · show (traverseNode "pre" true t []).1 = _
    rw [traverseNode_pre_dedup, show Tree.traverse t "pre" false = preFlat t
      from traverseNode_pre_nodedup t []]
    rfl
  · show (traverseNode "post" true t []).1 = _
    rw [traverseNode_post_dedup, show Tree.traverse t "post" false = postFlat t
      from traverseNode_post_nodedup t []]
    rfl

/-- C2: for every tree, non-deduplicated pre-order traversal equals the
pre-order flattening (each node's entity before every descendant's entity,
children left to right) and non-deduplicated post-order traversal equals
the post-order flattening (each node's entity after all of its descendants'
entities, children left to right). -/
theorem traverse_respects_orders (t : Tree) :
    Tree.traverse t "pre" false = preFlat t ∧
    Tree.traverse t "post" false = postFlat t :=
  ⟨traverseNode_pre_nodedup t [], traverseNode_post_nodedup t []⟩

/-- C3: for every tree and both orders, the multiset of entities yielded by
a non-deduplicated traversal is exactly the multiset of the entities of the
tree's entity-bearing nodes, one occurrence per node (when `traverse` is
invoked on a search-space root, whose own entity is absent, these are
exactly the non-root nodes); the underlying function is total, so the
traversal terminates on every finite tree. -/
theorem traverse_yields_all_entities (t : Tree) :
    (Tree.traverse t "pre" false).Perm (nodeEntities t) ∧
    (Tree.traverse t "post" false).Perm (nodeEntities t) := by
  constructor
  · rw [show Tree.traverse t "pre" false = preFlat t from traverseNode_pre_nodedup t [],
      preFlat_eq_nodeEntities]
  · rw [show Tree.traverse t "post" false = postFlat t from traverseNode_post_nodedup t []]
    exact postFlat_perm_nodeEntities t

/-- C4 counterexample: `traverse` is a generator function, so calling it
with the invalid order `"invalid"` raises nothing at invocation time — the
call succeeds and returns a suspended generator, refuting the claim that an
error is raised to the caller at invocation time.  The `AssertionError`
only appears once the generator is first advanced. -/
theorem traverseCall_invalid_order_does_not_raise :
    (Tree.traverseCall sampleTree "invalid" true).isOk = true ∧
    TraverseGenerator.run { node := sampleTree, order := "invalid", dedup := true } =
      ([], some "AssertionError") :=
  ⟨rfl, rfl⟩

/-- C4 (amended): calling `traverse` with an order other than `"pre"` and
`"post"` does not raise at the call itself (the generator function returns
a suspended generator); the `AssertionError` is raised on the first attempt
to draw an element, before any entity is produced. -/
theorem traverse_invalid_order_fails_on_first_next (t : Tree) (order : String)
    (dedup : Bool) (h1 : order ≠ "pre") (h2 : order ≠ "post") :
    (Tree.traverseCall t order dedup).isOk = true ∧
    TraverseGenerator.run { node := t, order := order, dedup := dedup } =
      ([], some "AssertionError") := by
  refine ⟨rfl, ?_⟩
  simp [TraverseGenerator.run, h1, h2]

/-- Witness for C4's amended theorem at the order `"bogus"`. -/
theorem traverse_invalid_order_fails_on_first_next_witness :
    (Tree.traverseCall (Tree.mk none []) "bogus" false).isOk = true ∧
    TraverseGenerator.run { node := Tree.mk none [], order := "bogus", dedup := false } =
      ([], some "AssertionError") :=
  traverse_invalid_order_fails_on_first_next (Tree.mk none []) "bogus" false
    (by decide) (by decide)

/-- C5: `to_device` moves tensors with `.to(device)`, rebuilds tuples,
lists and dicts recursively preserving shape and kind with scalars
unchanged (`moveTensors`), succeeds exactly when no value of an unsupported
type occurs inside the input (`firstBad obj = none`), and otherwise fails
with a `ValueError` whose message names the offending value and its type.
The transformation is a pure function into `Except`: it returns either a
whole result or an error, never a partial one, and the input is untouched.
Includes the spec's dispatch examples. -/
theorem to_device_correct (obj : PyObj) (dev : Nat) :
    (firstBad obj = none → to_device obj dev = Except.ok (moveTensors dev obj)) ∧
    (∀ rep ty, firstBad obj = some (rep, ty) →
      to_device obj dev = Except.error (unsupportedMsg rep ty)) ∧
    to_device (PyObj.dict [("x", PyObj.lst [PyObj.tensor 1 0, PyObj.tensor 2 0]),
        ("y", PyObj.pyInt 3)]) dev =
      Except.ok (PyObj.dict [("x", PyObj.lst [PyObj.tensor 1 dev, PyObj.tensor 2 dev]),
        ("y", PyObj.pyInt 3)]) ∧
    to_device (PyObj.other "custom" "MyClass") dev =
      Except.error (unsupportedMsg "custom" "MyClass") := by
  refine ⟨to_device_of_supported obj dev, fun rep ty h => to_device_of_bad obj dev rep ty h,
    ?_, rfl⟩
  simp [to_device, toDeviceDict, toDeviceList]

/-- Witness for C5 at the spec's dispatch example and device `7`. -/
theorem to_device_correct_witness :
    to_device (PyObj.dict [("x", PyObj.lst [PyObj.tensor 1 0, PyObj.tensor 2 0]),
        ("y", PyObj.pyInt 3)]) 7 =
      Except.ok (moveTensors 7 (PyObj.dict [("x", PyObj.lst [PyObj.tensor 1 0,
        PyObj.tensor 2 0]), ("y", PyObj.pyInt 3)])) :=
  (to_device_correct (PyObj.dict [("x", PyObj.lst [PyObj.tensor 1 0, PyObj.tensor 2 0]),
    ("y", PyObj.pyInt 3)]) 7).1 rfl

/-- C6: after a non-empty sequence of updates on a freshly reset meter
(weights at least 1, as produced by the default `n=1` and positive repeat
counts), `count` is the sum of the weights, `sum` is the weighted sum of
the values, `val` is the last supplied value, and `avg` is `sum` divided by
`count`. -/
theorem averageMeter_update_stats (m : AverageMeter) (us : List (Rat × Nat))
    (h : us ≠ []) (hpos : ∀ p ∈ us, 1 ≤ p.2) :
    (applyUpdates m.reset us).count = (us.map fun p => ((p.2 : Rat))).sum ∧
    (applyUpdates m.reset us).sum = (us.map fun p => p.1 * ((p.2 : Rat))).sum ∧
    (applyUpdates m.reset us).val = (us.getLast h).1 ∧
    (applyUpdates m.reset us).avg =
      (applyUpdates m.reset us).sum / (applyUpdates m.reset us).count := by
  have hcs := applyUpdates_count_sum us m.reset
  refine ⟨by rw [hcs.1]; simp [AverageMeter.reset],
    by rw [hcs.2]; simp [AverageMeter.reset], ?_, ?_⟩
  · match us with
    | u :: rest =>
      have hv := applyUpdates_val_avg rest m.reset u.1 u.2
      simpa [applyUpdates] using hv.1
  · match us with
    | u :: rest =>
      have hv := applyUpdates_val_avg rest m.reset u.1 u.2
      simpa [applyUpdates] using hv.2

/-- Witness for C6: updates `5`, `7`, `9`, each with weight 1, yield
`val = 9`, `sum = 21`, `count = 3`, `avg = 7`. -/
theorem averageMeter_update_stats_witness :
    (applyUpdates ((AverageMeter.init "loss" ":f").reset) [(5, 1), (7, 1), (9, 1)]).count = 3 ∧
    (applyUpdates ((AverageMeter.init "loss" ":f").reset) [(5, 1), (7, 1), (9, 1)]).sum = 21 ∧
    (applyUpdates ((AverageMeter.init "loss" ":f").reset) [(5, 1), (7, 1), (9, 1)]).val = 9 ∧
    (applyUpdates ((AverageMeter.init "loss" ":f").reset) [(5, 1), (7, 1), (9, 1)]).avg = 7 := by
  have h := averageMeter_update_stats (AverageMeter.init "loss" ":f")
    [(5, 1), (7, 1), (9, 1)] (by simp) (by decide)
  refine ⟨?_, ?_, ?_, ?_⟩
  · rw [h.1]; norm_num
  · rw [h.2.1]; norm_num
  · rw [h.2.2.1]; norm_num [List.getLast]
  · rw [h.2.2.2, h.1, h.2.1]; norm_num

/-- C7: the module counter starts at zero and every call to
`global_mutable_counting` increments it and returns the new value, so the
`(k+1)`-th sequential call returns `k + 1`; in particular the first three
calls return 1, 2, 3, the returned sequence is strictly increasing, and no
value is returned twice within the process lifetime. -/
theorem global_mutable_counting_sequence :
    (∀ k, counterReturn k = k + 1) ∧
    counterReturn 0 = 1 ∧ counterReturn 1 = 2 ∧ counterReturn 2 = 3 ∧
    (∀ j d, counterReturn j < counterReturn (j + d + 1)) ∧
    (∀ j d, counterReturn j ≠ counterReturn (j + d + 1)) := by
  refine ⟨counterReturn_eq, rfl, rfl, rfl, ?_, ?_⟩
  · intro j d
    rw [counterReturn_eq, counterReturn_eq]
    omega
  · intro j d
    rw [counterReturn_eq, counterReturn_eq]
    omega

/-- C8 counterexample: updating a freshly reset meter with the non-numeric
value `"x"` (weight 1) does emit the warning, but the update does not
proceed to the count, sum and average fields: `self.sum += val * n` raises
`TypeError` (`0 + "x"`), so only `val` is updated and `count`, `sum`, `avg`
keep their previous values — refuting the claim that the fields are updated
with the non-numeric value. -/
theorem dynMeter_string_update_raises :
    DynMeter.update freshDynMeter (MVal.str "x") 1 =
      (true, { val := MVal.str "x", sum := MVal.int 0, count := 0, avg := MVal.int 0 },
        some "TypeError") ∧
    (DynMeter.update freshDynMeter (MVal.str "x") 1).2.1.count = 0 ∧
    (DynMeter.update freshDynMeter (MVal.str "x") 1).2.2 ≠ none :=
  ⟨rfl, rfl, by decide⟩

/-- C8 (amended): the `isinstance` check in `update` only logs — the
warning flag is set exactly for non-numeric values and never stops
execution, `self.val = val` always lands (no validation aborts the update),
and the remaining assignments run until the dynamic arithmetic itself
fails: for a string value added to a numeric running sum,
`self.sum += val * n` raises `TypeError`, leaving `sum`, `count` and `avg`
unchanged. -/
theorem dynMeter_update_no_validation (m : DynMeter) (v : MVal) (n : Int) :
    (DynMeter.update m v n).1 = !v.isNumber ∧
    (DynMeter.update m v n).2.1.val = v ∧
    (∀ s, v = MVal.str s → m.sum.isNumber = true →
      (DynMeter.update m v n).2 = ({ m with val := v }, some "TypeError")) := by
  refine ⟨?_, ?_, ?_⟩
  · simp only [DynMeter.update]
    split
    · rfl
    · split <;> rfl
  · simp only [DynMeter.update]
    split
    · rfl
    · split <;> rfl
  · rintro s rfl hsum
    rcases hm : m.sum with z | q | st
    · simp [DynMeter.update, pyMul, pyAdd, hm]
    · simp [DynMeter.update, pyMul, pyAdd, hm]
    · rw [hm] at hsum
      simp [MVal.isNumber] at hsum

/-- Witness for C8's amended theorem at a fresh meter and the value `"x"`. -/
theorem dynMeter_update_no_validation_witness :
    (DynMeter.update freshDynMeter (MVal.str "x") 1).2 =
      ({ freshDynMeter with val := MVal.str "x" }, some "TypeError") :=
  (dynMeter_update_no_validation freshDynMeter (MVal.str "x") 1).2.2 "x" rfl rfl

/-- C9 counterexample: on a root node (entity unset), `type()` returns the
type object `NoneType` — `type(None)` — which is an actual type, not
null/undefined: the observed return value `some NoneType` differs from the
`none` the claim demands for the root. -/
theorem node_type_root_returns_NoneType :
    Tree.typeOf (Tree.mk none []) = PyType.noneType ∧
    node_type_spec (Tree.mk none []) = none ∧
    Tree.typeObserved (Tree.mk none []) ≠ node_type_spec (Tree.mk none []) :=
  ⟨rfl, rfl, by decide⟩

/-- C9 (amended): `type()` returns the runtime type of the wrapped entity
for every entity-bearing node; for the root, whose entity is unset, it
returns the type of the null value (`NoneType`), an actual type object
rather than null/undefined — the call never returns null. -/
theorem node_type_returns_entity_type (t : Tree) :
    Tree.typeObserved t = some (pyTypeOf t.mutableOf) ∧
    (t.mutableOf = none → Tree.typeOf t = PyType.noneType) ∧
    (∀ m, t.mutableOf = some m → Tree.typeOf t = PyType.mutableClass m.tyName) := by
  refine ⟨rfl, ?_, ?_⟩
  · intro h
    rw [Tree.typeOf, h]
    rfl
  · intro m h
    rw [Tree.typeOf, h]
    rfl

/-- Witness for C9's amended theorem at the spec's example tree: the root
observes `NoneType`, and a child wrapping `A` observes `A`'s class. -/
theorem node_type_returns_entity_type_witness :
    Tree.typeOf sampleTree = PyType.noneType ∧
    Tree.typeOf (Tree.mk (some sampleA) []) = PyType.mutableClass "LayerChoice" :=
  ⟨(node_type_returns_entity_type sampleTree).2.1 rfl,
   (node_type_returns_entity_type (Tree.mk (some sampleA) [])).2.2 sampleA rfl⟩

/-- C10: iterating a node with the default iteration protocol (`__iter__`
returns `self.traverse()`) produces exactly the entities of `traverse`
with its default arguments — pre-order, deduplication on, fresh memo —
that is, the first entity per key of the pre-order flattening. -/
theorem iter_eq_default_traverse (t : Tree) :
    Tree.iter t = Tree.traverse t "pre" true ∧
    Tree.iter t = keepFirstByKey (preFlat t) := by
  refine ⟨rfl, ?_⟩
  show (traverseNode "pre" true t []).1 = _
  rw [traverseNode_pre_dedup]
  rfl

end NasUtils
